import Mathlib

/-!
Shallow embedding of the internal-RAG-bot frontend (React single-page UI).

The embedding follows frontend/src/App.tsx (the version that wires the
backend service functions), frontend/src/components/ChatPanel/ChatPanel.tsx,
and the HTTP service modules (useProjects.js, useChat.js,
useProjectDocuments.js).  React state setters become explicit state passing
on an AppState record; every asynchronous network call is modelled by
passing the eventual outcome of that call as an explicit argument, so that
handlers that ignore the outcome are provably independent of it, and the
resolution or rejection of an awaited call is a separate state-transition
function applied after the synchronous phase.
-/

namespace RAGBot

/-- Source record, from frontend/src/types/index.ts (interface Source):
a retrieved document excerpt attached to an assistant message. -/
structure Source where
  documentId : String
  documentName : String
  chunk : String
  pageNumber : Option Nat
  relevanceScore : Option Rat
deriving DecidableEq, Repr

/-- Message role, from the role field of interface ChatMessage. -/
inductive Role where
  | user
  | assistant
deriving DecidableEq, Repr

/-- Chat message record, from frontend/src/types/index.ts
(interface ChatMessage). -/
structure ChatMessage where
  id : String
  projectId : String
  content : String
  role : Role
  timestamp : String
  sources : Option (List Source)
deriving DecidableEq, Repr

/-- Document processing status, from the status field of
interface Document. -/
inductive DocStatus where
  | processing
  | ready
  | error
deriving DecidableEq, Repr

/-- Document record, from frontend/src/types/index.ts (interface Document).
The fileType is kept as a plain string because App.tsx produces it by an
unchecked cast from the filename extension. -/
structure Document where
  id : String
  projectId : String
  filename : String
  fileType : String
  uploadedAt : String
  size : Nat
  status : DocStatus
deriving DecidableEq, Repr

/-- Project record.  The field is named file_count because the wired
App.tsx reads and writes project.file_count (handleProjectCreate and
handleFileUpload), which is the runtime shape of the objects it builds. -/
structure Project where
  id : String
  name : String
  description : Option String
  createdAt : String
  updatedAt : String
  file_count : Nat
deriving DecidableEq, Repr

/-- The root container state of App.tsx: one field per useState hook. -/
structure AppState where
  projects : List Project
  selectedProject : Option Project
  documents : List Document
  messages : List ChatMessage
  currentSources : List Source
  isSourcePanelOpen : Bool
  isLoading : Bool
  darkMode : Bool
deriving DecidableEq, Repr

/-- The initial state of App.tsx, from the useState initialisers. -/
def initialAppState : AppState :=
  { projects := []
    selectedProject := none
    documents := []
    messages := []
    currentSources := []
    isSourcePanelOpen := false
    isLoading := false
    darkMode := true }

/-- A generic axios failure.  The code never inspects the error beyond
logging it, so a message string suffices. -/
structure AxiosError where
  message : String
deriving DecidableEq, Repr

/-- The outcome of one axios request: the response data on fulfilment, or
the error on rejection.  Service functions are modelled as functions of
this outcome. -/
inductive AxiosOutcome (α : Type) where
  | success (data : α)
  | failure (error : AxiosError)
deriving DecidableEq, Repr

/-- From App.tsx handleProjectCreate: builds a new Project with a
Date.now based id, both timestamps set to now, file_count 0, and appends
it to the projects list.  nowMs stands for the Date.now() value used in
the id and now for the ISO timestamp. -/
def handleProjectCreate (nowMs now : String) (name : String)
    (description : Option String) (s : AppState) : AppState :=
  { s with projects := s.projects ++
      [{ id := "project-" ++ nowMs
         name := name
         description := description
         createdAt := now
         updatedAt := now
         file_count := 0 }] }

/-- From App.tsx handleProjectSelect: sets the selected project and keeps
only the messages whose projectId matches it. -/
def handleProjectSelect (project : Project) (s : AppState) : AppState :=
  { s with selectedProject := some project
           messages := s.messages.filter (fun m => m.projectId == project.id) }

/-- From App.tsx handleProjectDelete: synchronously filters the deleted id
out of projects, documents and messages, starts the DeleteProjects backend
call without awaiting it, and clears the selection when the deleted
project was selected.  The outcome argument stands for the eventual result
of the DeleteProjects call; the handler never reads it, which makes the
local update independent of the backend outcome. -/
def handleProjectDelete (projectId : String) (outcome : AxiosOutcome String)
    (s : AppState) : AppState :=
  let s1 := { s with
    projects := s.projects.filter (fun p => p.id != projectId)
    documents := s.documents.filter (fun d => d.projectId != projectId)
    messages := s.messages.filter (fun m => m.projectId != projectId) }
  match s1.selectedProject with
  | some p => if p.id == projectId then { s1 with selectedProject := none } else s1
  | none => s1

/-- A create-project or delete-project user action, for reasoning over
arbitrary sequences of those two operations. -/
inductive ProjectOp where
  | create (nowMs now name : String) (description : Option String)
  | delete (projectId : String) (outcome : AxiosOutcome String)
deriving Repr

/-- Applies one project operation to the state. -/
def applyProjectOp : ProjectOp → AppState → AppState
  | .create nowMs now name d, s => handleProjectCreate nowMs now name d s
  | .delete pid o, s => handleProjectDelete pid o s

/-- Applies a sequence of create/delete-project operations in order. -/
def runProjectOps (ops : List ProjectOp) (s : AppState) : AppState :=
  ops.foldl (fun s op => applyProjectOp op s) s

theorem filter_all_self {α : Type} (p : α → Bool) (l : List α) :
    (l.filter p).all p = true := by
  simp only [List.all_eq_true]
  intro a ha
  exact (List.mem_filter.mp ha).2

/-- C1: after handleProjectDelete runs, whatever sequence of create/delete
operations produced the current state, the local project list holds no
project with the deleted id, the documents and messages lists hold no
record with that projectId, and the resulting state is independent of the
outcome of the backend delete call. -/
theorem handleProjectDelete_purges_local_state
    (ops : List ProjectOp) (s0 : AppState) (projectId : String)
    (o : AxiosOutcome String) :
    ((handleProjectDelete projectId o (runProjectOps ops s0)).projects.all
        (fun p => p.id != projectId)) = true ∧
    ((handleProjectDelete projectId o (runProjectOps ops s0)).documents.all
        (fun d => d.projectId != projectId)) = true ∧
    ((handleProjectDelete projectId o (runProjectOps ops s0)).messages.all
        (fun m => m.projectId != projectId)) = true ∧
    ∀ o2 : AxiosOutcome String,
      handleProjectDelete projectId o2 (runProjectOps ops s0) =
        handleProjectDelete projectId o (runProjectOps ops s0) := by
  generalize runProjectOps ops s0 = s
  unfold handleProjectDelete
  refine ⟨?_, ?_, ?_, fun o2 => rfl⟩ <;>
    cases s.selectedProject with
    | none => simp [filter_all_self]
    | some p =>
        by_cases h : p.id == projectId <;>
          simp [h, filter_all_self]

/-- The body of a POST /api/chat/query request, built in ChatPanel
handleSend. -/
structure ChatQueryPayload where
  include_sources : Bool
  max_chunks : Nat
  project_id : String
  query : String
deriving DecidableEq, Repr

/-- The response of POST /api/chat/query, with the fields handleSend
reads: success, conversation_id, response, message_metadata.project_id,
message_metadata.timestamp and sources. -/
structure ChatResponse where
  success : Bool
  conversation_id : String
  response : String
  meta_project_id : String
  meta_timestamp : String
  sources : Option (List Source)
deriving DecidableEq, Repr

/-- The user message built by App.tsx handleSendMessage. -/
def mkUserMessage (nowMs now : String) (projectId content : String) :
    ChatMessage :=
  { id := "msg-" ++ nowMs
    projectId := projectId
    content := content
    role := .user
    timestamp := now
    sources := none }

/-- From App.tsx handleSendMessage: returns unchanged when no project is
selected, otherwise sets isLoading and appends exactly one user message.
This whole body runs synchronously, before any network call resolves. -/
def handleSendMessage (nowMs now : String) (content : String)
    (s : AppState) : AppState :=
  match s.selectedProject with
  | none => s
  | some proj =>
      { s with isLoading := true
               messages := s.messages ++ [mkUserMessage nowMs now proj.id content] }

/-- ChatPanel adds one piece of component-local state, the inputMessage
textarea value, on top of the App state it receives through props. -/
structure UIState where
  app : AppState
  inputMessage : String
deriving DecidableEq, Repr

/-- The selectedProjectId prop App.tsx passes to ChatPanel:
selectedProject?.id or the empty string. -/
def selectedProjectId (s : AppState) : String :=
  match s.selectedProject with
  | some p => p.id
  | none => ""

/-- The selectedProjectName prop App.tsx passes to ChatPanel. -/
def selectedProjectName (s : AppState) : Option String :=
  s.selectedProject.map (fun p => p.name)

/-- JavaScript String.prototype.trim: strips leading and trailing
whitespace.  Implemented by structural recursion on the character list so
that it evaluates inside the kernel. -/
def jsTrim (s : String) : String :=
  String.mk (((s.data.dropWhile Char.isWhitespace).reverse.dropWhile
    Char.isWhitespace).reverse)

/-- The guard of ChatPanel handleSend: inputMessage.trim() is truthy
(non-empty after trimming) and isLoading is false. -/
def chatGuard (u : UIState) : Bool :=
  (jsTrim u.inputMessage != "") && !u.app.isLoading

/-- The payload handleSend builds for postChatQuery.  maxChunks stands
for the REACT_APP_NUM_CHUNKS environment value, defaulting to 5 when
unset. -/
def mkChatPayload (maxChunks : Nat) (projectId query : String) :
    ChatQueryPayload :=
  { include_sources := true
    max_chunks := maxChunks
    project_id := projectId
    query := query }

/-- The synchronous phase of ChatPanel handleSend, everything up to the
awaited postChatQuery call: when the guard passes, it calls onSendMessage
(App.tsx handleSendMessage), clears the textarea, and issues exactly one
postChatQuery request with the payload; when the guard fails nothing
happens.  Returns the state at the await point and the list of requests
issued. -/
def handleSendSync (nowMs now : String) (maxChunks : Nat) (u : UIState) :
    UIState × List ChatQueryPayload :=
  if chatGuard u then
    ({ app := handleSendMessage nowMs now u.inputMessage u.app
       inputMessage := "" },
     [mkChatPayload maxChunks (selectedProjectId u.app) u.inputMessage])
  else (u, [])

/-- The assistant message handleSend builds from a successful response:
id from conversation_id, projectId and timestamp from message_metadata,
content from response.response, and sources copied verbatim from
response.sources. -/
def mkAssistantMessage (resp : ChatResponse) : ChatMessage :=
  { id := resp.conversation_id
    projectId := resp.meta_project_id
    content := resp.response
    role := .assistant
    timestamp := resp.meta_timestamp
    sources := resp.sources }

/-- The continuation of handleSend after the awaited postChatQuery call
fulfils with resp: on response.success it appends the assistant message,
clears the textarea again and clears isLoading (twice, once inside the
branch and once after it); otherwise it only logs and clears isLoading. -/
def handleSendResolve (resp : ChatResponse) (u : UIState) : UIState :=
  if resp.success then
    { app := { u.app with
                messages := u.app.messages ++ [mkAssistantMessage resp]
                isLoading := false }
      inputMessage := "" }
  else
    { u with app := { u.app with isLoading := false } }

/-- The behaviour of handleSend when the awaited postChatQuery call
rejects: handleSend has no try/catch, so the exception propagates and
none of the code after the await runs; the state stays exactly as the
synchronous phase left it. -/
def handleSendReject (u : UIState) : UIState := u

/-- The disabled condition of the chat textarea in ChatPanel:
isLoading or no selected project name. -/
def chatInputDisabled (u : UIState) : Bool :=
  u.app.isLoading || (selectedProjectName u.app).isNone

/-- The disabled condition of the Send button in ChatPanel:
empty trimmed input, or isLoading, or no selected project name. -/
def sendButtonDisabled (u : UIState) : Bool :=
  (jsTrim u.inputMessage == "") || u.app.isLoading ||
    (selectedProjectName u.app).isNone

/-- Sample project used to instantiate theorems with hypotheses. -/
def sampleProject : Project :=
  { id := "p1"
    name := "Alpha"
    description := none
    createdAt := "t0"
    updatedAt := "t0"
    file_count := 0 }

/-- Sample UI state: project p1 selected, textarea holding a query. -/
def sampleUI : UIState :=
  { app := { initialAppState with selectedProject := some sampleProject }
    inputMessage := "hi" }

/-- Sample successful chat response. -/
def sampleResponse : ChatResponse :=
  { success := true
    conversation_id := "c1"
    response := "answer"
    meta_project_id := "p1"
    meta_timestamp := "t1"
    sources := some [{ documentId := "d1"
                       documentName := "Doc.pdf"
                       chunk := "excerpt"
                       pageNumber := some 1
                       relevanceScore := none }] }

theorem chatGuard_true_of (u : UIState) (htrim : jsTrim u.inputMessage ≠ "")
    (hload : u.app.isLoading = false) : chatGuard u = true := by
  unfold chatGuard
  rw [hload]
  simp [bne_iff_ne]
  exact htrim

/-- C2: sending a non-empty query with a project selected appends exactly
one user message during the synchronous phase, and exactly one assistant
message is appended only when the response is successful, with the
assistant message sources field equal verbatim to the response sources
field; an unsuccessful response appends nothing. -/
theorem handleSend_appends_user_then_assistant
    (nowMs now : String) (maxChunks : Nat) (u : UIState) (proj : Project)
    (resp : ChatResponse)
    (htrim : jsTrim u.inputMessage ≠ "")
    (hload : u.app.isLoading = false)
    (hsel : u.app.selectedProject = some proj) :
    (handleSendSync nowMs now maxChunks u).1.app.messages =
      u.app.messages ++ [mkUserMessage nowMs now proj.id u.inputMessage] ∧
    (resp.success = true →
      (handleSendResolve resp (handleSendSync nowMs now maxChunks u).1).app.messages =
        (handleSendSync nowMs now maxChunks u).1.app.messages ++
          [mkAssistantMessage resp] ∧
      (mkAssistantMessage resp).sources = resp.sources) ∧
    (resp.success = false →
      (handleSendResolve resp (handleSendSync nowMs now maxChunks u).1).app.messages =
        (handleSendSync nowMs now maxChunks u).1.app.messages) := by
  have hguard := chatGuard_true_of u htrim hload
  refine ⟨?_, fun hs => ⟨?_, rfl⟩, fun hs => ?_⟩
  · simp [handleSendSync, hguard, handleSendMessage, hsel]
  · simp [handleSendResolve, hs]
  · simp [handleSendResolve, hs]

theorem handleSend_appends_user_then_assistant_witness :
    (jsTrim sampleUI.inputMessage ≠ "" ∧
     sampleUI.app.isLoading = false ∧
     sampleUI.app.selectedProject = some sampleProject) ∧
    ((handleSendSync "1" "t1" 5 sampleUI).1.app.messages =
       sampleUI.app.messages ++
         [mkUserMessage "1" "t1" sampleProject.id sampleUI.inputMessage] ∧
     (sampleResponse.success = true →
       (handleSendResolve sampleResponse
           (handleSendSync "1" "t1" 5 sampleUI).1).app.messages =
         (handleSendSync "1" "t1" 5 sampleUI).1.app.messages ++
           [mkAssistantMessage sampleResponse] ∧
       (mkAssistantMessage sampleResponse).sources = sampleResponse.sources) ∧
     (sampleResponse.success = false →
       (handleSendResolve sampleResponse
           (handleSendSync "1" "t1" 5 sampleUI).1).app.messages =
         (handleSendSync "1" "t1" 5 sampleUI).1.app.messages)) :=
  ⟨⟨by decide, rfl, rfl⟩,
   handleSend_appends_user_then_assistant "1" "t1" 5 sampleUI sampleProject
     sampleResponse (by decide) rfl rfl⟩

/-- C5: when the awaited postChatQuery call rejects, the user message
appended synchronously is still the last message and the thread is
otherwise unchanged, exactly one request was issued (no retry), and no
assistant message was inserted. -/
theorem handleSend_reject_leaves_thread
    (nowMs now : String) (maxChunks : Nat) (u : UIState) (proj : Project)
    (htrim : jsTrim u.inputMessage ≠ "")
    (hload : u.app.isLoading = false)
    (hsel : u.app.selectedProject = some proj) :
    (handleSendReject (handleSendSync nowMs now maxChunks u).1).app.messages =
      u.app.messages ++ [mkUserMessage nowMs now proj.id u.inputMessage] ∧
    (handleSendSync nowMs now maxChunks u).2 =
      [mkChatPayload maxChunks proj.id u.inputMessage] ∧
    (handleSendReject (handleSendSync nowMs now maxChunks u).1).app.messages.filter
        (fun m => m.role == Role.assistant) =
      u.app.messages.filter (fun m => m.role == Role.assistant) := by
  have hguard := chatGuard_true_of u htrim hload
  refine ⟨?_, ?_, ?_⟩
  · simp [handleSendReject, handleSendSync, hguard, handleSendMessage, hsel]
  · simp [handleSendSync, hguard, selectedProjectId, hsel]
  · simp [handleSendReject, handleSendSync, hguard, handleSendMessage, hsel,
      List.filter_append, mkUserMessage]

theorem handleSend_reject_leaves_thread_witness :
    (jsTrim sampleUI.inputMessage ≠ "" ∧
     sampleUI.app.isLoading = false ∧
     sampleUI.app.selectedProject = some sampleProject) ∧
    ((handleSendReject (handleSendSync "1" "t1" 5 sampleUI).1).app.messages =
       sampleUI.app.messages ++
         [mkUserMessage "1" "t1" sampleProject.id sampleUI.inputMessage] ∧
     (handleSendSync "1" "t1" 5 sampleUI).2 =
       [mkChatPayload 5 sampleProject.id sampleUI.inputMessage] ∧
     (handleSendReject (handleSendSync "1" "t1" 5 sampleUI).1).app.messages.filter
         (fun m => m.role == Role.assistant) =
       sampleUI.app.messages.filter (fun m => m.role == Role.assistant)) :=
  ⟨⟨by decide, rfl, rfl⟩,
   handleSend_reject_leaves_thread "1" "t1" 5 sampleUI sampleProject
     (by decide) rfl rfl⟩

/-- C10: when the awaited postChatQuery call rejects, no setIsLoading(false)
runs, so the loading flag set by handleSendMessage stays true and both the
chat textarea and the Send button remain disabled. -/
theorem handleSend_reject_loading_stuck
    (nowMs now : String) (maxChunks : Nat) (u : UIState) (proj : Project)
    (htrim : jsTrim u.inputMessage ≠ "")
    (hload : u.app.isLoading = false)
    (hsel : u.app.selectedProject = some proj) :
    (handleSendReject (handleSendSync nowMs now maxChunks u).1).app.isLoading = true ∧
    chatInputDisabled (handleSendReject (handleSendSync nowMs now maxChunks u).1) = true ∧
    sendButtonDisabled (handleSendReject (handleSendSync nowMs now maxChunks u).1) = true := by
  have hguard := chatGuard_true_of u htrim hload
  have hl : (handleSendReject (handleSendSync nowMs now maxChunks u).1).app.isLoading = true := by
    simp [handleSendReject, handleSendSync, hguard, handleSendMessage, hsel]
  refine ⟨hl, ?_, ?_⟩
  · simp [chatInputDisabled, hl]
  · simp [sendButtonDisabled, hl]

theorem handleSend_reject_loading_stuck_witness :
    (jsTrim sampleUI.inputMessage ≠ "" ∧
     sampleUI.app.isLoading = false ∧
     sampleUI.app.selectedProject = some sampleProject) ∧
    ((handleSendReject (handleSendSync "1" "t1" 5 sampleUI).1).app.isLoading = true ∧
     chatInputDisabled (handleSendReject (handleSendSync "1" "t1" 5 sampleUI).1) = true ∧
     sendButtonDisabled (handleSendReject (handleSendSync "1" "t1" 5 sampleUI).1) = true) :=
  ⟨⟨by decide, rfl, rfl⟩,
   handleSend_reject_loading_stuck "1" "t1" 5 sampleUI sampleProject
     (by decide) rfl rfl⟩

/-- The name and size of one dropped File object, the two properties
handleFileUpload reads. -/
structure FileData where
  name : String
  size : Nat
deriving DecidableEq, Repr

/-- file.name.split(".").pop()?.toLowerCase(): the substring after the
last dot, lower-cased.  split always returns at least one element, so
pop() is never undefined. -/
def extOf (name : String) : String :=
  ((name.splitOn ".").getLastD "").toLower

/-- One multipart upload request as built by handleFileUpload: the
transmitted file plus the form metadata fields. -/
structure UploadRequest where
  projectId : String
  fileName : String
  fileSize : Nat
  fileType : String
  uploadedAt : String
  status : String
deriving DecidableEq, Repr

/-- The single formData request handleFileUpload builds, always from
files[0]: fileType falls back to unknown when the extension is the
empty string (the || fallback in the source). -/
def mkUploadRequest (now : String) (projectId : String) (f : FileData) :
    UploadRequest :=
  { projectId := projectId
    fileName := f.name
    fileSize := f.size
    fileType := if extOf f.name == "" then "unknown" else extOf f.name
    uploadedAt := now
    status := "processing" }

/-- One optimistic Document record per dropped file, as built by the
files.map in handleFileUpload; docId stands for the Date.now/Math.random
based id of that record. -/
def mkUploadDocument (docId : String) (now : String) (projectId : String)
    (f : FileData) : Document :=
  { id := docId
    projectId := projectId
    filename := f.name
    fileType := extOf f.name
    uploadedAt := now
    size := f.size
    status := .processing }

/-- The optimistic Document records for a whole drop, one per file, in
drop order; ids supplies the fresh random id of each position. -/
def mkUploadDocuments (ids : Nat → String) (now projectId : String) :
    List FileData → List Document
  | [] => []
  | f :: fs =>
      mkUploadDocument (ids 0) now projectId f ::
        mkUploadDocuments (fun i => ids (i + 1)) now projectId fs

/-- The value of a JavaScript promise object as an expression: calling an
async function without await yields a pending promise immediately. -/
inductive JSPromise where
  | pending
deriving DecidableEq, Repr

/-- JavaScript truthiness of a promise object: an object is always
truthy. -/
def jsTruthy : JSPromise → Bool
  | .pending => true

/-- From App.tsx handleFileUpload: builds one optimistic Document per
dropped file, builds one formData from files[0] only, calls
uploadDocumentQuery without awaiting it (so response is a pending
promise), early-returns when response is falsy, and otherwise appends the
new documents and bumps the matching project file_count by the number of
dropped files.  Returns none when the drop is empty, because files[0] is
then undefined and reading files[0].name throws.  uploadOutcome stands
for the eventual result of the un-awaited upload call, which the handler
never reads.  The result pairs the new state with the list of upload
requests issued. -/
def handleFileUpload (ids : Nat → String) (now : String)
    (uploadOutcome : AxiosOutcome String) (files : List FileData)
    (projectId : String) (s : AppState) :
    Option (AppState × List UploadRequest) :=
  match files with
  | [] => none
  | f0 :: fs =>
      let newDocuments := mkUploadDocuments ids now projectId (f0 :: fs)
      let request := mkUploadRequest now projectId f0
      let response := JSPromise.pending
      if jsTruthy response = false then
        some (s, [request])
      else
        some
          ({ s with
              documents := s.documents ++ newDocuments
              projects := s.projects.map (fun p =>
                if p.id == projectId then
                  { p with file_count := p.file_count + (f0 :: fs).length
                           updatedAt := now }
                else p) },
           [request])

/-- The setTimeout reconciliation in handleFileUpload: every document
whose id occurs among the freshly inserted records is switched to status
ready; all others are left alone. -/
def reconcileDocuments (newDocuments : List Document)
    (docs : List Document) : List Document :=
  docs.map (fun doc =>
    if newDocuments.any (fun d => d.id == doc.id) then
      { doc with status := DocStatus.ready }
    else doc)

theorem mkUploadDocuments_length (ids : Nat → String) (now projectId : String)
    (files : List FileData) :
    (mkUploadDocuments ids now projectId files).length = files.length := by
  induction files generalizing ids with
  | nil => rfl
  | cons f fs ih => simp [mkUploadDocuments, ih]

theorem mkUploadDocuments_all_processing (ids : Nat → String)
    (now projectId : String) (files : List FileData) :
    (mkUploadDocuments ids now projectId files).all
      (fun d => d.status == DocStatus.processing) = true := by
  induction files generalizing ids with
  | nil => rfl
  | cons f fs ih => simp [mkUploadDocuments, mkUploadDocument, ih]

theorem reconcileDocuments_append (nd a b : List Document) :
    reconcileDocuments nd (a ++ b) =
      reconcileDocuments nd a ++ reconcileDocuments nd b := by
  simp [reconcileDocuments]

theorem reconcileDocuments_of_subset (nd l : List Document)
    (h : ∀ d ∈ l, d ∈ nd) :
    reconcileDocuments nd l =
      l.map (fun d => { d with status := DocStatus.ready }) := by
  unfold reconcileDocuments
  apply List.map_congr_left
  intro d hd
  have hany : nd.any (fun x => x.id == d.id) = true :=
    List.any_eq_true.mpr ⟨d, h d hd, by simp⟩
  simp [hany]

/-- C7: a drop of files inserts one optimistic Document per dropped file,
all with status processing, bumps the owning project file_count by the
number of dropped files, and the setTimeout reconciliation later switches
exactly those inserted records to status ready. -/
theorem handleFileUpload_optimistic_records
    (ids : Nat → String) (now : String) (o : AxiosOutcome String)
    (f0 : FileData) (fs : List FileData) (projectId : String) (s : AppState) :
    handleFileUpload ids now o (f0 :: fs) projectId s =
      some
        ({ s with
            documents := s.documents ++ mkUploadDocuments ids now projectId (f0 :: fs)
            projects := s.projects.map (fun p =>
              if p.id == projectId then
                { p with file_count := p.file_count + (f0 :: fs).length
                         updatedAt := now }
              else p) },
         [mkUploadRequest now projectId f0]) ∧
    (mkUploadDocuments ids now projectId (f0 :: fs)).length = (f0 :: fs).length ∧
    (mkUploadDocuments ids now projectId (f0 :: fs)).all
      (fun d => d.status == DocStatus.processing) = true ∧
    reconcileDocuments (mkUploadDocuments ids now projectId (f0 :: fs))
        (s.documents ++ mkUploadDocuments ids now projectId (f0 :: fs)) =
      reconcileDocuments (mkUploadDocuments ids now projectId (f0 :: fs))
          s.documents ++
        (mkUploadDocuments ids now projectId (f0 :: fs)).map
          (fun d => { d with status := DocStatus.ready }) := by
  refine ⟨rfl, mkUploadDocuments_length _ _ _ _,
    mkUploadDocuments_all_processing _ _ _ _, ?_⟩
  rw [reconcileDocuments_append]
  congr 1
  exact reconcileDocuments_of_subset _ _ (fun d hd => hd)

/-- C9: uploadDocumentQuery is called without await, so response is a
pending promise and always truthy; the early-return guard is therefore
unreachable, and the optimistic insertion and file-count bump execute
whatever the eventual outcome of the upload request is. -/
theorem handleFileUpload_guard_unreachable
    (ids : Nat → String) (now : String) (o o2 : AxiosOutcome String)
    (f0 : FileData) (fs : List FileData) (projectId : String) (s : AppState) :
    jsTruthy JSPromise.pending = true ∧
    handleFileUpload ids now o (f0 :: fs) projectId s =
      handleFileUpload ids now o2 (f0 :: fs) projectId s ∧
    (handleFileUpload ids now o (f0 :: fs) projectId s).map
        (fun r => r.1.documents) =
      some (s.documents ++ mkUploadDocuments ids now projectId (f0 :: fs)) ∧
    (handleFileUpload ids now o (f0 :: fs) projectId s).map
        (fun r => r.1.projects) =
      some (s.projects.map (fun p =>
        if p.id == projectId then
          { p with file_count := p.file_count + (f0 :: fs).length
                   updatedAt := now }
        else p)) :=
  ⟨rfl, rfl, rfl, rfl⟩

/-- Sample dropped files for the multi-file drop scenario. -/
def sampleFileA : FileData := { name := "a.pdf", size := 10 }

/-- Second sample dropped file. -/
def sampleFileB : FileData := { name := "b.xlsx", size := 20 }

/-- C3 fails on the code: a drop of two files issues exactly one upload
request, and that request transmits only the first file; the second file
is never transmitted. -/
theorem handleFileUpload_transmits_only_first_file :
    ([sampleFileA, sampleFileB].length = 2) ∧
    (handleFileUpload (fun i => "doc-" ++ toString i) "t0" (.success "ok")
        [sampleFileA, sampleFileB] "p1" initialAppState).map
      (fun r => r.2) = some [mkUploadRequest "t0" "p1" sampleFileA] ∧
    (handleFileUpload (fun i => "doc-" ++ toString i) "t0" (.success "ok")
        [sampleFileA, sampleFileB] "p1" initialAppState).map
      (fun r => r.2.length) = some 1 :=
  ⟨rfl, rfl, rfl⟩

/-- One conversation as returned by GET /api/chat/history/{project_id}:
fetchChatHistory reads only the messages array of each conversation. -/
structure Conversation where
  messages : List ChatMessage
deriving DecidableEq, Repr

/-- The flattening in fetchChatHistory:
response.flatMap(conversation => conversation.messages). -/
def flattenHistory (convs : List Conversation) : List ChatMessage :=
  convs.flatMap (fun c => c.messages)

/-- The resolution of a fetchProjectDocuments call: when the awaited
getProjectDocumentsQuery fulfils with an array, the truthiness guard
passes (a JavaScript array is truthy, even when empty) and setDocuments
replaces the documents list unconditionally — nothing compares the
response against the currently selected project. -/
def resolveDocumentsFetch (response : List Document) (s : AppState) :
    AppState :=
  { s with documents := response }

/-- The resolution of a fetchChatHistory call: the conversations are
flattened and setMessages replaces the messages list unconditionally —
again with no check against the currently selected project. -/
def resolveChatHistoryFetch (response : List Conversation) (s : AppState) :
    AppState :=
  { s with messages := flattenHistory response }

/-- Second sample project, used as the switch target. -/
def sampleProjectB : Project :=
  { id := "p2"
    name := "Beta"
    description := none
    createdAt := "t0"
    updatedAt := "t0"
    file_count := 0 }

/-- A document belonging to project p1. -/
def sampleDocP1 : Document :=
  { id := "d1"
    projectId := "p1"
    filename := "a.pdf"
    fileType := "pdf"
    uploadedAt := "t0"
    size := 10
    status := .ready }

/-- A chat message belonging to project p1. -/
def sampleMsgP1 : ChatMessage :=
  { id := "m1"
    projectId := "p1"
    content := "hello"
    role := .user
    timestamp := "t0"
    sources := none }

/-- C4 fails on the code: with project p1 selected and its documents and
history fetches still pending, switching the selection to project p2 and
then letting the stale p1 responses resolve applies the p1 data to the
state while p2 is selected — the stale completions do overwrite the
documents and messages shown for the newly selected project. -/
theorem staleFetch_overwrites_switched_state :
    (resolveChatHistoryFetch [{ messages := [sampleMsgP1] }]
        (resolveDocumentsFetch [sampleDocP1]
          (handleProjectSelect sampleProjectB
            { initialAppState with selectedProject := some sampleProject }))).selectedProject =
      some sampleProjectB ∧
    (resolveChatHistoryFetch [{ messages := [sampleMsgP1] }]
        (resolveDocumentsFetch [sampleDocP1]
          (handleProjectSelect sampleProjectB
            { initialAppState with selectedProject := some sampleProject }))).documents =
      [sampleDocP1] ∧
    (resolveChatHistoryFetch [{ messages := [sampleMsgP1] }]
        (resolveDocumentsFetch [sampleDocP1]
          (handleProjectSelect sampleProjectB
            { initialAppState with selectedProject := some sampleProject }))).messages =
      [sampleMsgP1] ∧
    sampleDocP1.projectId ≠ sampleProjectB.id ∧
    sampleMsgP1.projectId ≠ sampleProjectB.id := by
  refine ⟨rfl, rfl, rfl, by decide, by decide⟩

/-- C6: the flattening of a chat-history response keeps every message of
every conversation, and keeps each conversation as an in-order (in fact
contiguous) subsequence of the flattened list, so the internal message
order of each conversation is preserved. -/
theorem flattenHistory_preserves_conversations
    (convs : List Conversation) (c : Conversation) (h : c ∈ convs) :
    c.messages.Sublist (flattenHistory convs) ∧
    c.messages.all (fun m => decide (m ∈ flattenHistory convs)) = true := by
  have hsub : c.messages.Sublist (flattenHistory convs) := by
    induction convs with
    | nil => cases h
    | cons c0 rest ih =>
        rcases List.mem_cons.mp h with hc | hc
        · subst hc
          exact List.sublist_append_left _ _
        · exact (ih hc).trans (List.sublist_append_right _ _)
  refine ⟨hsub, ?_⟩
  simp only [List.all_eq_true, decide_eq_true_eq]
  intro m hm
  exact hsub.subset hm

theorem flattenHistory_preserves_conversations_witness :
    ((⟨[sampleMsgP1]⟩ : Conversation) ∈
        [(⟨[]⟩ : Conversation), ⟨[sampleMsgP1]⟩]) ∧
    (((⟨[sampleMsgP1]⟩ : Conversation).messages.Sublist
        (flattenHistory [(⟨[]⟩ : Conversation), ⟨[sampleMsgP1]⟩])) ∧
      ((⟨[sampleMsgP1]⟩ : Conversation).messages.all
        (fun m => decide (m ∈
          flattenHistory [(⟨[]⟩ : Conversation), ⟨[sampleMsgP1]⟩])) = true)) :=
  ⟨by decide,
   flattenHistory_preserves_conversations
     [(⟨[]⟩ : Conversation), ⟨[sampleMsgP1]⟩] ⟨[sampleMsgP1]⟩ (by decide)⟩

/-- The effect of one service function on a given axios outcome: the list
of console.error log lines it produced, and either the response data or
the re-thrown error. -/
def serviceResult (logLine : String) (outcome : AxiosOutcome α) :
    List String × Except AxiosError α :=
  match outcome with
  | .success d => ([], .ok d)
  | .failure e => ([logLine], .error e)

/-- useProjects.js getProjectsQuery: GET /api/projects; on failure logs
and re-throws. -/
def getProjectsQuery (outcome : AxiosOutcome (List Project)) :
    List String × Except AxiosError (List Project) :=
  serviceResult "Error posting chat query:" outcome

/-- useProjects.js AddProjects: POST /api/projects; on failure logs and
re-throws. -/
def AddProjects (outcome : AxiosOutcome Project) :
    List String × Except AxiosError Project :=
  serviceResult "Error posting chat query:" outcome

/-- useProjects.js DeleteProjects: DELETE /api/projects/{project_id}; on
failure logs and re-throws. -/
def DeleteProjects (outcome : AxiosOutcome String) :
    List String × Except AxiosError String :=
  serviceResult "Error posting chat query:" outcome

/-- useProjectDocuments.js getProjectDocumentsQuery:
GET /api/documents/project/{project_id}; on failure logs and re-throws.
The log line is the copy-pasted chat-query one from the source. -/
def getProjectDocumentsQuery (outcome : AxiosOutcome (List Document)) :
    List String × Except AxiosError (List Document) :=
  serviceResult "Error posting chat query:" outcome

/-- useProjectDocuments.js uploadDocumentQuery:
POST /api/documents/upload?project_id=...; on failure logs and
re-throws. -/
def uploadDocumentQuery (outcome : AxiosOutcome String) :
    List String × Except AxiosError String :=
  serviceResult "Error uploading document:" outcome

/-- useProjectDocuments.js deleteDocument:
DELETE /api/documents/{document_id}; on failure logs and re-throws. -/
def deleteDocument (outcome : AxiosOutcome String) :
    List String × Except AxiosError String :=
  serviceResult "Error deleting document:" outcome

/-- useChat.js postChatQuery: POST /api/chat/query; on failure logs and
re-throws. -/
def postChatQuery (outcome : AxiosOutcome ChatResponse) :
    List String × Except AxiosError ChatResponse :=
  serviceResult "Error posting chat query:" outcome

/-- useChat.js getChatHistory: GET /api/chat/history/{project_id}; on
failure logs and re-throws (with a copy-pasted feedback log line). -/
def getChatHistory (outcome : AxiosOutcome (List Conversation)) :
    List String × Except AxiosError (List Conversation) :=
  serviceResult "Error posting chat feedback:" outcome

/-- C8: every HTTP access function, on a failing request, logs exactly one
console line and re-throws the very error it caught; none of them swallows
the failure or substitutes a success value. -/
theorem serviceFunctions_log_and_rethrow (e : AxiosError) :
    getProjectsQuery (.failure e) = (["Error posting chat query:"], .error e) ∧
    AddProjects (.failure e) = (["Error posting chat query:"], .error e) ∧
    DeleteProjects (.failure e) = (["Error posting chat query:"], .error e) ∧
    getProjectDocumentsQuery (.failure e) =
      (["Error posting chat query:"], .error e) ∧
    uploadDocumentQuery (.failure e) =
      (["Error uploading document:"], .error e) ∧
    deleteDocument (.failure e) = (["Error deleting document:"], .error e) ∧
    postChatQuery (.failure e) = (["Error posting chat query:"], .error e) ∧
    getChatHistory (.failure e) =
      (["Error posting chat feedback:"], .error e) :=
  ⟨rfl, rfl, rfl, rfl, rfl, rfl, rfl, rfl⟩

end RAGBot
